import Mathlib

/-!
Verification of the embedding (re)build pipeline of the open-notebook
repository (`commands/embedding_commands.py`).

The Python command handlers are shallowly embedded as pure Lean functions:

* the SurrealDB tables touched by the pipeline become lists of records in a
  `Store` structure, and the four queries issued by `collect_items_for_rebuild`
  become list filters/maps over that structure;
* the external collaborators of the rebuild loop (`Source.get` /
  `source.vectorize`, `Note.get` / `note.save`, `SourceInsight.get` /
  `EMBEDDING_MODEL.aembed` + `UPDATE`) are abstracted by per-item outcome
  oracles in a `RebuildEnv`, since each loop body only distinguishes
  "record missing" / "exception raised" / "success";
* the single-item command is embedded with explicit store passing so that the
  store mutations performed by `vectorize` (chunk replacement) are visible;
* exceptions become an explicit error path; embedding vectors are modelled as
  `List Int` (only presence and non-emptiness of a vector matter anywhere in
  the pipeline); wall-clock fields (`processing_time`) are not modelled.

A ghost trace of attempted `(type, id)` pairs is threaded through the rebuild
loops: each loop iteration of the Python code appends exactly one entry, so the
trace records which items were attempted and in which order.
-/

/-- The three content types handled by the pipeline
(`Literal["source", "note", "insight"]`). -/
inductive ItemType
  | source
  | note
  | insight
deriving DecidableEq, Repr

/-- Outcome of handling one item inside a rebuild loop iteration:
the `get` call returned a falsy value (`notFound`), some step of the iteration
body raised an exception (`procError`), or the item was embedded (`ok`). -/
inductive ItemOutcome
  | notFound
  | procError
  | ok
deriving DecidableEq, Repr

/-- `True` exactly for the `ok` outcome. -/
def ItemOutcome.isOk : ItemOutcome → Bool
  | ItemOutcome.ok => true
  | _ => false

/-- `Literal["existing", "all"]`, the rebuild mode. -/
inductive RebuildMode
  | existing
  | all
deriving DecidableEq, Repr

/-- A row of the `source` table; only the fields read by the pipeline. -/
structure SourceRow where
  id : String
  full_text : Option String
deriving DecidableEq, Repr

/-- A row of the `source_embedding` table: one chunk vector, linked to its
source record. -/
structure SourceEmbeddingRow where
  source : String
  embedding : Option (List Int)
deriving DecidableEq, Repr

/-- A row of the `note` table; only the fields read by the pipeline. -/
structure NoteRow where
  id : String
  content : Option String
  embedding : Option (List Int)
deriving DecidableEq, Repr

/-- A row of the `source_insight` table; only the fields read by the
pipeline. -/
structure SourceInsightRow where
  id : String
  content : Option String
  embedding : Option (List Int)
deriving DecidableEq, Repr

/-- The slice of the database visible to the pipeline. -/
structure Store where
  source : List SourceRow
  source_embedding : List SourceEmbeddingRow
  note : List NoteRow
  source_insight : List SourceInsightRow
deriving DecidableEq, Repr

/-- The SurrealQL condition `embedding != none AND array::len(embedding) > 0`. -/
def hasNonEmptyEmbedding : Option (List Int) → Bool
  | some (_ :: _) => true
  | _ => false

/-- Result of `collect_items_for_rebuild`: the dict
`{"sources": [...], "notes": [...], "insights": [...]}`. -/
structure CollectedItems where
  sources : List String
  notes : List String
  insights : List String
deriving DecidableEq, Repr

/-- `collect_items_for_rebuild(mode, include_sources, include_notes,
include_insights)`.  Each branch embeds the corresponding SurrealQL query:

* sources, `existing`: `RETURN array::distinct(SELECT VALUE source.id FROM
  source_embedding WHERE embedding != none AND array::len(embedding) > 0)`;
* sources, `all`: `SELECT id FROM source WHERE full_text != none`;
* notes, `existing`: `SELECT id FROM note WHERE embedding != none AND
  array::len(embedding) > 0`; notes, `all`: `SELECT id FROM note WHERE
  content != none`;
* insights, `existing`: the same embedding filter on `source_insight`;
  insights, `all`: `SELECT id FROM source_insight`.

An unselected type keeps its initial empty list. -/
def collect_items_for_rebuild (db : Store) (mode : RebuildMode)
    (include_sources include_notes include_insights : Bool) : CollectedItems :=
  { sources :=
      if include_sources then
        match mode with
        | RebuildMode.existing =>
            ((db.source_embedding.filter
                (fun r => hasNonEmptyEmbedding r.embedding)).map
              (fun r => r.source)).dedup
        | RebuildMode.all =>
            (db.source.filter (fun s => s.full_text.isSome)).map (fun s => s.id)
      else []
    notes :=
      if include_notes then
        match mode with
        | RebuildMode.existing =>
            (db.note.filter (fun r => hasNonEmptyEmbedding r.embedding)).map
              (fun r => r.id)
        | RebuildMode.all =>
            (db.note.filter (fun r => r.content.isSome)).map (fun r => r.id)
      else []
    insights :=
      if include_insights then
        match mode with
        | RebuildMode.existing =>
            (db.source_insight.filter
                (fun r => hasNonEmptyEmbedding r.embedding)).map
              (fun r => r.id)
        | RebuildMode.all => db.source_insight.map (fun r => r.id)
      else [] }

/-- `RebuildEmbeddingsInput`. -/
structure RebuildEmbeddingsInput where
  mode : RebuildMode
  include_sources : Bool := true
  include_notes : Bool := true
  include_insights : Bool := true
deriving DecidableEq, Repr

/-- `RebuildEmbeddingsOutput` (without `processing_time`). -/
structure RebuildEmbeddingsOutput where
  success : Bool
  total_items : Nat
  processed_items : Nat
  failed_items : Nat
  sources_processed : Nat := 0
  notes_processed : Nat := 0
  insights_processed : Nat := 0
  error_message : Option String := none
deriving DecidableEq, Repr

/-- The error message raised when `model_manager.get_embedding_model()`
returns a falsy value. -/
def noEmbeddingModelMsg : String :=
  "No embedding model configured. Please configure one in the Models section."

/-- Environment of one run of `rebuild_embeddings_command`:

* `embedding_model` — truthiness of `await model_manager.get_embedding_model()`;
* `db` — the store read by `collect_items_for_rebuild`;
* `collect_error` — `some msg` when a store read raises during collection
  (the exception escapes to the command's outer `except` handler);
* the three outcome oracles give, per item id, what the corresponding loop
  body's external calls do (`get` returning falsy, an exception, or success).
-/
structure RebuildEnv where
  embedding_model : Bool
  db : Store
  collect_error : Option String
  source_outcome : String → ItemOutcome
  note_outcome : String → ItemOutcome
  insight_outcome : String → ItemOutcome

/-- Mutable state of the three rebuild loops: the per-type processed counters,
the shared `failed_items` counter, and the ghost trace of attempted items. -/
structure RebuildState where
  sources_processed : Nat
  notes_processed : Nat
  insights_processed : Nat
  failed_items : Nat
  attempted : List (ItemType × String)
deriving DecidableEq, Repr

/-- Counters all zero, nothing attempted: the state just before the
`# Process sources` loop. -/
def initRebuildState : RebuildState :=
  { sources_processed := 0, notes_processed := 0, insights_processed := 0
    failed_items := 0, attempted := [] }

/-- One iteration of the `for source_id in items["sources"]` loop:
`Source.get` falsy → `failed_items += 1`; an exception from the body
→ `failed_items += 1`; otherwise `vectorize` succeeded and
`sources_processed += 1`. -/
def processSourceItem (outcome : String → ItemOutcome) (st : RebuildState)
    (source_id : String) : RebuildState :=
  let st1 := { st with attempted := st.attempted ++ [(ItemType.source, source_id)] }
  match outcome source_id with
  | ItemOutcome.ok => { st1 with sources_processed := st1.sources_processed + 1 }
  | ItemOutcome.notFound => { st1 with failed_items := st1.failed_items + 1 }
  | ItemOutcome.procError => { st1 with failed_items := st1.failed_items + 1 }

/-- One iteration of the `for note_id in items["notes"]` loop. -/
def processNoteItem (outcome : String → ItemOutcome) (st : RebuildState)
    (note_id : String) : RebuildState :=
  let st1 := { st with attempted := st.attempted ++ [(ItemType.note, note_id)] }
  match outcome note_id with
  | ItemOutcome.ok => { st1 with notes_processed := st1.notes_processed + 1 }
  | ItemOutcome.notFound => { st1 with failed_items := st1.failed_items + 1 }
  | ItemOutcome.procError => { st1 with failed_items := st1.failed_items + 1 }

/-- One iteration of the `for insight_id in items["insights"]` loop. -/
def processInsightItem (outcome : String → ItemOutcome) (st : RebuildState)
    (insight_id : String) : RebuildState :=
  let st1 := { st with attempted := st.attempted ++ [(ItemType.insight, insight_id)] }
  match outcome insight_id with
  | ItemOutcome.ok => { st1 with insights_processed := st1.insights_processed + 1 }
  | ItemOutcome.notFound => { st1 with failed_items := st1.failed_items + 1 }
  | ItemOutcome.procError => { st1 with failed_items := st1.failed_items + 1 }

/-- The `# Process sources` loop. -/
def processSources (outcome : String → ItemOutcome) (ids : List String)
    (st : RebuildState) : RebuildState :=
  ids.foldl (processSourceItem outcome) st

/-- The `# Process notes` loop. -/
def processNotes (outcome : String → ItemOutcome) (ids : List String)
    (st : RebuildState) : RebuildState :=
  ids.foldl (processNoteItem outcome) st

/-- The `# Process insights` loop. -/
def processInsights (outcome : String → ItemOutcome) (ids : List String)
    (st : RebuildState) : RebuildState :=
  ids.foldl (processInsightItem outcome) st

/-- The output built by the command's `except Exception` handler
(all counters hard-coded to zero, `error_message = str(e)`). -/
def rebuildFailureOutput (msg : String) : RebuildEmbeddingsOutput :=
  { success := false, total_items := 0, processed_items := 0, failed_items := 0
    sources_processed := 0, notes_processed := 0, insights_processed := 0
    error_message := some msg }

/-- `rebuild_embeddings_command(input_data)`.  Returns the command output
paired with the ghost trace of attempted items.

Control flow of the Python function: check the embedding model (raise if
falsy), collect items (a store read may raise), early-return a successful
all-zero output when `total_items == 0`, otherwise run the three loops and
return a successful output with the accumulated counters; any exception from
the pre-flight or collection steps is caught by the outer handler, which
returns `rebuildFailureOutput (str e)`. -/
def rebuild_embeddings_command (env : RebuildEnv)
    (input : RebuildEmbeddingsInput) :
    RebuildEmbeddingsOutput × List (ItemType × String) :=
  if env.embedding_model = false then
    (rebuildFailureOutput noEmbeddingModelMsg, [])
  else
    match env.collect_error with
    | some e => (rebuildFailureOutput e, [])
    | none =>
      let items := collect_items_for_rebuild env.db input.mode
        input.include_sources input.include_notes input.include_insights
      let total_items :=
        items.sources.length + items.notes.length + items.insights.length
      if total_items = 0 then
        ({ success := true, total_items := 0, processed_items := 0,
           failed_items := 0, sources_processed := 0, notes_processed := 0,
           insights_processed := 0, error_message := none }, [])
      else
        let st := processInsights env.insight_outcome items.insights
          (processNotes env.note_outcome items.notes
            (processSources env.source_outcome items.sources initRebuildState))
        ({ success := true, total_items := total_items,
           processed_items :=
             st.sources_processed + st.notes_processed + st.insights_processed,
           failed_items := st.failed_items,
           sources_processed := st.sources_processed,
           notes_processed := st.notes_processed,
           insights_processed := st.insights_processed,
           error_message := none }, st.attempted)

/-- Environment of `embed_single_item_command`:
`embedding_model` as in `RebuildEnv`; `chunk_text` is the externally defined
chunking policy applied to a source's full text; `embed_text` is the
embedding model applied to one text. -/
structure SingleEnv where
  embedding_model : Bool
  chunk_text : String → List String
  embed_text : String → List Int

/-- `Source.get(id)`: the `source` row with the given id, if any. -/
def sourceGet (db : Store) (id : String) : Option SourceRow :=
  db.source.find? (fun s => s.id == id)

/-- `Note.get(id)`: the `note` row with the given id, if any. -/
def noteGet (db : Store) (id : String) : Option NoteRow :=
  db.note.find? (fun n => n.id == id)

/-- `SourceInsight.get(id)`: the `source_insight` row with the given id,
if any. -/
def insightGet (db : Store) (id : String) : Option SourceInsightRow :=
  db.source_insight.find? (fun r => r.id == id)

/-- Modelled from the spec: `source.vectorize()` is defined in
`open_notebook/domain/notebook.py`, which is not among the sources here.
Following §4.2 of the spec, it "splits content into chunks (externally
defined chunking policy), computes one embedding per chunk via the Embedding
Provider Adapter, persists all chunk vectors, replacing any prior chunks for
that document id": all existing `source_embedding` rows of the document are
removed and one fresh row per chunk of the current content is inserted. -/
def vectorize (env : SingleEnv) (db : Store) (src : SourceRow) : Store :=
  let newRows : List SourceEmbeddingRow :=
    (env.chunk_text (src.full_text.getD "")).map
      (fun c => { source := src.id, embedding := some (env.embed_text c) })
  { db with source_embedding :=
      db.source_embedding.filter (fun r => !(r.source == src.id)) ++ newRows }

/-- Modelled from the spec: `note.save()` is defined by `ObjectModel.save` in
`open_notebook/domain/base.py`, which is not among the sources here.
Following §4.2 of the spec, it "computes a single embedding over its body and
persists it, overwriting any prior vector". -/
def noteSave (env : SingleEnv) (db : Store) (note : NoteRow) : Store :=
  { db with note := db.note.map (fun r =>
      if r.id == note.id then
        { r with embedding := some (env.embed_text (r.content.getD "")) }
      else r) }

/-- The insight branch of the single-item command: compute
`EMBEDDING_MODEL.aembed([insight.content])[0]` and run
`UPDATE $insight_id SET embedding = $embedding`. -/
def insightUpdateEmbedding (env : SingleEnv) (db : Store)
    (insight : SourceInsightRow) : Store :=
  { db with source_insight := db.source_insight.map (fun r =>
      if r.id == insight.id then
        { r with embedding := some (env.embed_text (insight.content.getD "")) }
      else r) }

/-- The chunk-count query `SELECT VALUE count() FROM source_embedding WHERE
source = $source_id GROUP ALL` (with the result-shape handling of lines
93-98 collapsing to the row count). -/
def countSourceChunks (db : Store) (source_id : String) : Nat :=
  (db.source_embedding.filter (fun r => r.source == source_id)).length

/-- `EmbedSingleItemInput`. -/
structure EmbedSingleItemInput where
  item_id : String
  item_type : ItemType
deriving DecidableEq, Repr

/-- `EmbedSingleItemOutput` (without `processing_time`). -/
structure EmbedSingleItemOutput where
  success : Bool
  item_id : String
  item_type : ItemType
  chunks_created : Nat := 0
  error_message : Option String := none
deriving DecidableEq, Repr

/-- The `ValueError(f"Note '{item_id}' not found")` message. -/
def noteNotFoundMsg (item_id : String) : String :=
  "Note '" ++ item_id ++ "' not found"

/-- The `ValueError(f"Source '{item_id}' not found")` message. -/
def sourceNotFoundMsg (item_id : String) : String :=
  "Source '" ++ item_id ++ "' not found"

/-- The `ValueError(f"Insight '{item_id}' not found")` message. -/
def insightNotFoundMsg (item_id : String) : String :=
  "Insight '" ++ item_id ++ "' not found"

/-- The `except` handler of `embed_single_item_command`: `success=False`,
default `chunks_created=0`, `error_message=str(e)`; the store is unchanged. -/
def singleFailureOutput (input : EmbedSingleItemInput) (msg : String) :
    EmbedSingleItemOutput :=
  { success := false, item_id := input.item_id, item_type := input.item_type
    chunks_created := 0, error_message := some msg }

/-- `embed_single_item_command(input_data)`, returning the command output and
the store after the run.  Control flow of the Python function: raise if no
embedding model is configured; dispatch on `item_type`; in each branch raise
a not-found `ValueError` when the `get` returns a falsy value, otherwise
embed and persist; for sources, count the document's chunks after
`vectorize`.  Every raise is caught by the outer `except` handler. -/
def embed_single_item_command (env : SingleEnv) (db : Store)
    (input : EmbedSingleItemInput) : EmbedSingleItemOutput × Store :=
  if env.embedding_model = false then
    (singleFailureOutput input noEmbeddingModelMsg, db)
  else
    match input.item_type with
    | ItemType.source =>
      match sourceGet db input.item_id with
      | none => (singleFailureOutput input (sourceNotFoundMsg input.item_id), db)
      | some src =>
        let db2 := vectorize env db src
        ({ success := true, item_id := input.item_id
           item_type := ItemType.source
           chunks_created := countSourceChunks db2 input.item_id
           error_message := none }, db2)
    | ItemType.note =>
      match noteGet db input.item_id with
      | none => (singleFailureOutput input (noteNotFoundMsg input.item_id), db)
      | some note =>
        let db2 := noteSave env db note
        ({ success := true, item_id := input.item_id
           item_type := ItemType.note, chunks_created := 0
           error_message := none }, db2)
    | ItemType.insight =>
      match insightGet db input.item_id with
      | none =>
        (singleFailureOutput input (insightNotFoundMsg input.item_id), db)
      | some insight =>
        let db2 := insightUpdateEmbedding env db insight
        ({ success := true, item_id := input.item_id
           item_type := ItemType.insight, chunks_created := 0
           error_message := none }, db2)

/-- The outcome oracle of the loop body matching an item's type. -/
def outcomeOf (env : RebuildEnv) (it : ItemType × String) : ItemOutcome :=
  match it.1 with
  | ItemType.source => env.source_outcome it.2
  | ItemType.note => env.note_outcome it.2
  | ItemType.insight => env.insight_outcome it.2

/-- One loop iteration of the rebuild, dispatched on the item's type; the
three sequential loops of the command are exactly a fold of this step over
`rebuildWorklist`. -/
def rebuildStep (env : RebuildEnv) (st : RebuildState)
    (it : ItemType × String) : RebuildState :=
  match it.1 with
  | ItemType.source => processSourceItem env.source_outcome st it.2
  | ItemType.note => processNoteItem env.note_outcome st it.2
  | ItemType.insight => processInsightItem env.insight_outcome st it.2

/-- The full work list of one rebuild run: all collected sources, then all
collected notes, then all collected insights, each tagged with its type. -/
def rebuildWorklist (c : CollectedItems) : List (ItemType × String) :=
  c.sources.map (fun i => (ItemType.source, i)) ++
    c.notes.map (fun i => (ItemType.note, i)) ++
    c.insights.map (fun i => (ItemType.insight, i))

/-- Sum of the three per-type processed counters (the command's
`processed_items`). -/
def RebuildState.processedTotal (st : RebuildState) : Nat :=
  st.sources_processed + st.notes_processed + st.insights_processed

/-- The items collected by one rebuild run over its environment. -/
def rebuildCollected (env : RebuildEnv) (input : RebuildEmbeddingsInput) :
    CollectedItems :=
  collect_items_for_rebuild env.db input.mode input.include_sources
    input.include_notes input.include_insights

/-- The loop state after the whole work list has been processed. -/
def rebuildFinalState (env : RebuildEnv) (input : RebuildEmbeddingsInput) :
    RebuildState :=
  (rebuildWorklist (rebuildCollected env input)).foldl (rebuildStep env)
    initRebuildState

/-- The loop state after the first `n` iterations of the run: the
intermediate snapshots observable while the rebuild is in flight. -/
def rebuildPartialState (env : RebuildEnv) (input : RebuildEmbeddingsInput)
    (n : Nat) : RebuildState :=
  ((rebuildWorklist (rebuildCollected env input)).take n).foldl
    (rebuildStep env) initRebuildState

/-- A store with no rows at all. -/
def emptyStore : Store :=
  { source := [], source_embedding := [], note := [], source_insight := [] }

/-- A small concrete store used to instantiate the theorems:
one source with two chunk vectors, one orphan chunk row with no vector,
one embedded note and one un-embedded note, one embedded insight. -/
def dbW : Store :=
  { source := [{ id := "source:1", full_text := some "hello world" },
               { id := "source:2", full_text := none }]
    source_embedding := [{ source := "source:1", embedding := some [1, 2] },
                         { source := "source:1", embedding := some [3] },
                         { source := "source:3", embedding := none }]
    note := [{ id := "note:1", content := some "a note", embedding := some [1] },
             { id := "note:2", content := some "b note", embedding := none }]
    source_insight := [{ id := "insight:1", content := some "an insight",
                         embedding := some [2] }] }

/-- A rebuild environment over `dbW` where sources and insights embed
successfully and every note turns out to be missing. -/
def envW : RebuildEnv :=
  { embedding_model := true, db := dbW, collect_error := none
    source_outcome := fun _ => ItemOutcome.ok
    note_outcome := fun _ => ItemOutcome.notFound
    insight_outcome := fun _ => ItemOutcome.ok }

/-- `envW` with no embedding model configured. -/
def envNoModel : RebuildEnv := { envW with embedding_model := false }

/-- `envW` over an empty store. -/
def envEmpty : RebuildEnv := { envW with db := emptyStore }

/-- `envW` with a store read failure during collection. -/
def envCollectErr : RebuildEnv :=
  { envW with collect_error := some "db unreachable" }

/-- A rebuild request in `existing` mode with every type selected. -/
def inputW : RebuildEmbeddingsInput := { mode := RebuildMode.existing }

/-- A rebuild request selecting no content type at all. -/
def inputAllFalse : RebuildEmbeddingsInput :=
  { mode := RebuildMode.all, include_sources := false, include_notes := false
    include_insights := false }

/-- A single-item environment: two chunks per text, embedding by length. -/
def senvW : SingleEnv :=
  { embedding_model := true, chunk_text := fun s => [s, s]
    embed_text := fun s => [Int.ofNat s.length] }

theorem rebuildStep_attempted (env : RebuildEnv) (st : RebuildState)
    (it : ItemType × String) :
    (rebuildStep env st it).attempted = st.attempted ++ [it] := by
  obtain ⟨t, i⟩ := it
  cases t
  · cases h : env.source_outcome i <;>
      simp [rebuildStep, processSourceItem, h]
  · cases h : env.note_outcome i <;>
      simp [rebuildStep, processNoteItem, h]
  · cases h : env.insight_outcome i <;>
      simp [rebuildStep, processInsightItem, h]

theorem rebuildStep_counts (env : RebuildEnv) (st : RebuildState)
    (it : ItemType × String) :
    (rebuildStep env st it).processedTotal + (rebuildStep env st it).failed_items
      = st.processedTotal + st.failed_items + 1 := by
  obtain ⟨t, i⟩ := it
  cases t
  · cases h : env.source_outcome i <;>
      simp [rebuildStep, processSourceItem, h, RebuildState.processedTotal] <;> omega
  · cases h : env.note_outcome i <;>
      simp [rebuildStep, processNoteItem, h, RebuildState.processedTotal] <;> omega
  · cases h : env.insight_outcome i <;>
      simp [rebuildStep, processInsightItem, h, RebuildState.processedTotal] <;> omega

theorem rebuildStep_failed (env : RebuildEnv) (st : RebuildState)
    (it : ItemType × String) :
    (rebuildStep env st it).failed_items
      = st.failed_items + (if (outcomeOf env it).isOk then 0 else 1) := by
  obtain ⟨t, i⟩ := it
  cases t
  · cases h : env.source_outcome i <;>
      simp [rebuildStep, processSourceItem, h, outcomeOf, ItemOutcome.isOk]
  · cases h : env.note_outcome i <;>
      simp [rebuildStep, processNoteItem, h, outcomeOf, ItemOutcome.isOk]
  · cases h : env.insight_outcome i <;>
      simp [rebuildStep, processInsightItem, h, outcomeOf, ItemOutcome.isOk]

theorem foldl_rebuildStep_attempted (env : RebuildEnv)
    (l : List (ItemType × String)) :
    ∀ st : RebuildState,
      (l.foldl (rebuildStep env) st).attempted = st.attempted ++ l := by
  induction l with
  | nil => intro st; simp
  | cons it t ih =>
    intro st
    rw [List.foldl_cons, ih, rebuildStep_attempted]
    simp

theorem foldl_rebuildStep_counts (env : RebuildEnv)
    (l : List (ItemType × String)) :
    ∀ st : RebuildState,
      (l.foldl (rebuildStep env) st).processedTotal
          + (l.foldl (rebuildStep env) st).failed_items
        = st.processedTotal + st.failed_items + l.length := by
  induction l with
  | nil => intro st; simp
  | cons it t ih =>
    intro st
    rw [List.foldl_cons, ih, rebuildStep_counts]
    simp
    omega

theorem foldl_rebuildStep_failed (env : RebuildEnv)
    (l : List (ItemType × String)) :
    ∀ st : RebuildState,
      (l.foldl (rebuildStep env) st).failed_items
        = st.failed_items + l.countP (fun it => !(outcomeOf env it).isOk) := by
  induction l with
  | nil => intro st; simp
  | cons it t ih =>
    intro st
    rw [List.foldl_cons, ih, rebuildStep_failed, List.countP_cons]
    cases hok : (outcomeOf env it).isOk
    all_goals simp [hok]
    all_goals omega

theorem run_loops_eq_foldl (env : RebuildEnv) (c : CollectedItems)
    (st : RebuildState) :
    processInsights env.insight_outcome c.insights
        (processNotes env.note_outcome c.notes
          (processSources env.source_outcome c.sources st))
      = (rebuildWorklist c).foldl (rebuildStep env) st := by
  unfold processSources processNotes processInsights rebuildWorklist
  rw [List.foldl_append, List.foldl_append, List.foldl_map, List.foldl_map,
    List.foldl_map]
  rfl

theorem rebuildWorklist_length (c : CollectedItems) :
    (rebuildWorklist c).length
      = c.sources.length + c.notes.length + c.insights.length := by
  simp [rebuildWorklist]
  omega

theorem rebuild_main_path (env : RebuildEnv) (input : RebuildEmbeddingsInput)
    (hm : env.embedding_model = true) (hc : env.collect_error = none) :
    rebuild_embeddings_command env input =
      if (rebuildWorklist (rebuildCollected env input)).length = 0 then
        ({ success := true, total_items := 0, processed_items := 0,
           failed_items := 0, sources_processed := 0, notes_processed := 0,
           insights_processed := 0, error_message := none }, [])
      else
        ({ success := true,
           total_items := (rebuildWorklist (rebuildCollected env input)).length,
           processed_items := (rebuildFinalState env input).sources_processed
             + (rebuildFinalState env input).notes_processed
             + (rebuildFinalState env input).insights_processed,
           failed_items := (rebuildFinalState env input).failed_items,
           sources_processed := (rebuildFinalState env input).sources_processed,
           notes_processed := (rebuildFinalState env input).notes_processed,
           insights_processed := (rebuildFinalState env input).insights_processed,
           error_message := none }, (rebuildFinalState env input).attempted) := by
  unfold rebuild_embeddings_command rebuildFinalState rebuildCollected
  rw [hm, hc, rebuildWorklist_length]
  simp only [Bool.true_eq_false, if_false]
  rw [run_loops_eq_foldl]

theorem rebuild_success_or_failure (env : RebuildEnv)
    (input : RebuildEmbeddingsInput) :
    (∃ msg, rebuild_embeddings_command env input
        = (rebuildFailureOutput msg, []))
      ∨ (rebuild_embeddings_command env input).1.success = true := by
  by_cases hm : env.embedding_model = false
  · left
    refine ⟨noEmbeddingModelMsg, ?_⟩
    unfold rebuild_embeddings_command
    rw [if_pos hm]
  · rw [Bool.not_eq_false] at hm
    cases hc : env.collect_error with
    | some e =>
      left
      refine ⟨e, ?_⟩
      unfold rebuild_embeddings_command
      rw [hm, hc]
      simp only [Bool.true_eq_false, if_false]
    | none =>
      right
      rw [rebuild_main_path env input hm hc]
      by_cases h0 : (rebuildWorklist (rebuildCollected env input)).length = 0
      · rw [if_pos h0]
      · rw [if_neg h0]

theorem mem_typeTagged {t : ItemType} {xs : List String}
    {a : ItemType × String} (h : a ∈ xs.map (fun i => (t, i))) : a.1 = t := by
  obtain ⟨x, _, rfl⟩ := List.mem_map.mp h
  rfl

theorem rebuildWorklist_nodup (c : CollectedItems) (hs : c.sources.Nodup)
    (hn : c.notes.Nodup) (hi : c.insights.Nodup) :
    (rebuildWorklist c).Nodup := by
  have inj : ∀ t : ItemType,
      Function.Injective (fun i : String => (t, i)) := by
    intro t a b h
    exact congrArg Prod.snd h
  have hs' := hs.map (inj ItemType.source)
  have hn' := hn.map (inj ItemType.note)
  have hi' := hi.map (inj ItemType.insight)
  unfold rebuildWorklist
  refine (hs'.append hn' ?_).append hi' ?_
  · intro a ha ha'
    have h1 := mem_typeTagged ha
    have h2 := mem_typeTagged ha'
    rw [h1] at h2
    exact ItemType.noConfusion h2
  · intro a ha ha'
    have h2 := mem_typeTagged ha'
    rcases List.mem_append.mp ha with h | h
    · have h1 := mem_typeTagged h
      rw [h1] at h2
      exact ItemType.noConfusion h2
    · have h1 := mem_typeTagged h
      rw [h1] at h2
      exact ItemType.noConfusion h2

theorem collected_sources_nodup (db : Store) (mode : RebuildMode)
    (s n i : Bool) (h : (db.source.map SourceRow.id).Nodup) :
    (collect_items_for_rebuild db mode s n i).sources.Nodup := by
  unfold collect_items_for_rebuild
  cases s
  · simp
  · cases mode
    · simp only [if_true]
      exact List.nodup_dedup _
    · simp only [if_true]
      exact ((List.filter_sublist _).map SourceRow.id).nodup h

theorem collected_notes_nodup (db : Store) (mode : RebuildMode)
    (s n i : Bool) (h : (db.note.map NoteRow.id).Nodup) :
    (collect_items_for_rebuild db mode s n i).notes.Nodup := by
  unfold collect_items_for_rebuild
  cases n
  · simp
  · cases mode <;> simp only [if_true] <;>
      exact ((List.filter_sublist _).map NoteRow.id).nodup h

theorem collected_insights_nodup (db : Store) (mode : RebuildMode)
    (s n i : Bool) (h : (db.source_insight.map SourceInsightRow.id).Nodup) :
    (collect_items_for_rebuild db mode s n i).insights.Nodup := by
  unfold collect_items_for_rebuild
  cases i
  · simp
  · cases mode
    · simp only [if_true]
      exact ((List.filter_sublist _).map SourceInsightRow.id).nodup h
    · simp only [if_true]
      exact h

theorem collect_existing_sources_mem (db : Store) (s n i : Bool)
    (id : String) :
    id ∈ (collect_items_for_rebuild db RebuildMode.existing s n i).sources
      ↔ s = true ∧ ∃ r ∈ db.source_embedding,
          r.source = id ∧ hasNonEmptyEmbedding r.embedding = true := by
  unfold collect_items_for_rebuild
  cases s
  · simp
  · simp only [if_true, List.mem_dedup, List.mem_map, List.mem_filter,
      true_and]
    constructor
    · rintro ⟨r, ⟨hr, he⟩, rfl⟩
      exact ⟨r, hr, rfl, he⟩
    · rintro ⟨r, hr, rfl, he⟩
      exact ⟨r, ⟨hr, he⟩, rfl⟩

theorem collect_existing_notes_mem (db : Store) (s n i : Bool)
    (id : String) :
    id ∈ (collect_items_for_rebuild db RebuildMode.existing s n i).notes
      ↔ n = true ∧ ∃ r ∈ db.note,
          r.id = id ∧ hasNonEmptyEmbedding r.embedding = true := by
  unfold collect_items_for_rebuild
  cases n
  · simp
  · simp only [if_true, List.mem_map, List.mem_filter, true_and]
    constructor
    · rintro ⟨r, ⟨hr, he⟩, rfl⟩
      exact ⟨r, hr, rfl, he⟩
    · rintro ⟨r, hr, rfl, he⟩
      exact ⟨r, ⟨hr, he⟩, rfl⟩

theorem collect_existing_insights_mem (db : Store) (s n i : Bool)
    (id : String) :
    id ∈ (collect_items_for_rebuild db RebuildMode.existing s n i).insights
      ↔ i = true ∧ ∃ r ∈ db.source_insight,
          r.id = id ∧ hasNonEmptyEmbedding r.embedding = true := by
  unfold collect_items_for_rebuild
  cases i
  · simp
  · simp only [if_true, List.mem_map, List.mem_filter, true_and]
    constructor
    · rintro ⟨r, ⟨hr, he⟩, rfl⟩
      exact ⟨r, hr, rfl, he⟩
    · rintro ⟨r, hr, rfl, he⟩
      exact ⟨r, ⟨hr, he⟩, rfl⟩

theorem collect_unselected_sources (db : Store) (mode : RebuildMode)
    (n i : Bool) :
    (collect_items_for_rebuild db mode false n i).sources = [] := by
  unfold collect_items_for_rebuild
  simp

theorem collect_unselected_notes (db : Store) (mode : RebuildMode)
    (s i : Bool) :
    (collect_items_for_rebuild db mode s false i).notes = [] := by
  unfold collect_items_for_rebuild
  simp

theorem collect_unselected_insights (db : Store) (mode : RebuildMode)
    (s n : Bool) :
    (collect_items_for_rebuild db mode s n false).insights = [] := by
  unfold collect_items_for_rebuild
  simp

theorem vectorize_source_embedding (env : SingleEnv) (db : Store)
    (src : SourceRow) :
    (vectorize env db src).source_embedding
      = db.source_embedding.filter (fun r => !(r.source == src.id)) ++
          (env.chunk_text (src.full_text.getD "")).map
            (fun c => { source := src.id
                        embedding := some (env.embed_text c) }) := rfl

theorem vectorize_source_table (env : SingleEnv) (db : Store)
    (src : SourceRow) : (vectorize env db src).source = db.source := rfl

theorem filter_ne_vectorize (env : SingleEnv) (db : Store) (src : SourceRow) :
    (vectorize env db src).source_embedding.filter
        (fun r => !(r.source == src.id))
      = db.source_embedding.filter (fun r => !(r.source == src.id)) := by
  rw [vectorize_source_embedding, List.filter_append, List.filter_filter]
  simp

theorem filter_eq_vectorize (env : SingleEnv) (db : Store) (src : SourceRow) :
    (vectorize env db src).source_embedding.filter
        (fun r => r.source == src.id)
      = (env.chunk_text (src.full_text.getD "")).map
          (fun c => { source := src.id
                      embedding := some (env.embed_text c) }) := by
  rw [vectorize_source_embedding, List.filter_append, List.filter_filter]
  simp

theorem countSourceChunks_vectorize (env : SingleEnv) (db : Store)
    (src : SourceRow) :
    countSourceChunks (vectorize env db src) src.id
      = (env.chunk_text (src.full_text.getD "")).length := by
  unfold countSourceChunks
  rw [filter_eq_vectorize, List.length_map]

theorem vectorize_idem (env : SingleEnv) (db : Store) (src : SourceRow) :
    vectorize env (vectorize env db src) src = vectorize env db src := by
  have h := filter_ne_vectorize env db src
  unfold vectorize at h ⊢
  simp only at h ⊢
  rw [h]

theorem rebuild_no_model_eq (env : RebuildEnv) (input : RebuildEmbeddingsInput)
    (hm : env.embedding_model = false) :
    rebuild_embeddings_command env input
      = (rebuildFailureOutput noEmbeddingModelMsg, []) := by
  unfold rebuild_embeddings_command
  rw [if_pos hm]

theorem rebuild_collect_error_eq (env : RebuildEnv)
    (input : RebuildEmbeddingsInput) (hm : env.embedding_model = true)
    (hc : env.collect_error = some e) :
    rebuild_embeddings_command env input = (rebuildFailureOutput e, []) := by
  unfold rebuild_embeddings_command
  rw [hm, hc]
  simp only [Bool.true_eq_false, if_false]

theorem rebuild_trace_is_worklist (env : RebuildEnv)
    (input : RebuildEmbeddingsInput) (hm : env.embedding_model = true)
    (hc : env.collect_error = none) :
    (rebuild_embeddings_command env input).2
      = rebuildWorklist (rebuildCollected env input) := by
  rw [rebuild_main_path env input hm hc]
  by_cases h0 : (rebuildWorklist (rebuildCollected env input)).length = 0
  · rw [if_pos h0]
    exact (List.length_eq_zero.mp h0).symm
  · rw [if_neg h0]
    unfold rebuildFinalState
    rw [foldl_rebuildStep_attempted]
    simp [initRebuildState]

/-- **C1 (counterexample)**: the claim says a rebuild request with
`include_sources = include_notes = include_insights = false` is rejected with
an `InvalidRequest` failure before any work.  At the concrete input
`envEmpty` / `inputAllFalse` the command does not fail at all: it returns a
successful output, so the claimed rejection does not happen. -/
theorem rebuild_all_false_not_rejected :
    ¬((rebuild_embeddings_command envEmpty inputAllFalse).1.success
        = false) := by
  decide

/-- **C1 (amended)**: for every rebuild request with all three include flags
false (given a configured embedding model and no store failure during
collection), the command is not rejected: it collects nothing and completes
successfully with `total_items = processed_items = failed_items = 0` and no
error message; the at-least-one-type invariant is enforced only by the UI
caller, which disables submission of such requests. -/
theorem rebuild_all_false_completes (env : RebuildEnv)
    (input : RebuildEmbeddingsInput) (hm : env.embedding_model = true)
    (hc : env.collect_error = none) (hs : input.include_sources = false)
    (hn : input.include_notes = false) (hi : input.include_insights = false) :
    rebuild_embeddings_command env input
      = ({ success := true, total_items := 0, processed_items := 0,
           failed_items := 0, sources_processed := 0, notes_processed := 0,
           insights_processed := 0, error_message := none }, []) := by
  have h0 : (rebuildWorklist (rebuildCollected env input)).length = 0 := by
    rw [rebuildWorklist_length]
    unfold rebuildCollected
    rw [hs, hn, hi]
    rw [collect_unselected_sources, collect_unselected_notes,
      collect_unselected_insights]
    rfl
  rw [rebuild_main_path env input hm hc, if_pos h0]

theorem rebuild_all_false_completes_witness :
    envW.embedding_model = true ∧ envW.collect_error = none ∧
      rebuild_embeddings_command envW inputAllFalse
        = ({ success := true, total_items := 0, processed_items := 0,
             failed_items := 0, sources_processed := 0, notes_processed := 0,
             insights_processed := 0, error_message := none }, []) :=
  ⟨rfl, rfl, rebuild_all_false_completes envW inputAllFalse rfl rfl rfl rfl rfl⟩

/-- **C2**: for every rebuild request, when no embedding model is configured
the command fails before any item is processed: the output reports
`success = false` with the provider-unavailable message, all counters
(total, processed, failed, and the per-type ones) are zero, and the attempt
trace is empty — zero items are ever attempted. -/
theorem rebuild_no_embedding_model (env : RebuildEnv)
    (input : RebuildEmbeddingsInput) (hm : env.embedding_model = false) :
    rebuild_embeddings_command env input
      = ({ success := false, total_items := 0, processed_items := 0,
           failed_items := 0, sources_processed := 0, notes_processed := 0,
           insights_processed := 0,
           error_message := some noEmbeddingModelMsg }, []) :=
  rebuild_no_model_eq env input hm

theorem rebuild_no_embedding_model_witness :
    envNoModel.embedding_model = false ∧
      rebuild_embeddings_command envNoModel inputW
        = ({ success := false, total_items := 0, processed_items := 0,
             failed_items := 0, sources_processed := 0, notes_processed := 0,
             insights_processed := 0,
             error_message := some noEmbeddingModelMsg }, []) :=
  ⟨rfl, rebuild_no_embedding_model envNoModel inputW rfl⟩

/-- **C3**: for every rebuild run in which the collector returns zero items
in total, the run finishes successfully: `success = true`,
`total_items = processed_items = failed_items = 0`, no error message (and
nothing is attempted). -/
theorem rebuild_zero_total_completes (env : RebuildEnv)
    (input : RebuildEmbeddingsInput) (hm : env.embedding_model = true)
    (hc : env.collect_error = none)
    (h0 : (rebuildCollected env input).sources.length
        + (rebuildCollected env input).notes.length
        + (rebuildCollected env input).insights.length = 0) :
    rebuild_embeddings_command env input
      = ({ success := true, total_items := 0, processed_items := 0,
           failed_items := 0, sources_processed := 0, notes_processed := 0,
           insights_processed := 0, error_message := none }, []) := by
  have h0' : (rebuildWorklist (rebuildCollected env input)).length = 0 := by
    rw [rebuildWorklist_length]
    exact h0
  rw [rebuild_main_path env input hm hc, if_pos h0']

theorem rebuild_zero_total_completes_witness :
    envEmpty.embedding_model = true ∧ envEmpty.collect_error = none ∧
      (rebuildCollected envEmpty inputW).sources.length
        + (rebuildCollected envEmpty inputW).notes.length
        + (rebuildCollected envEmpty inputW).insights.length = 0 ∧
      rebuild_embeddings_command envEmpty inputW
        = ({ success := true, total_items := 0, processed_items := 0,
             failed_items := 0, sources_processed := 0, notes_processed := 0,
             insights_processed := 0, error_message := none }, []) :=
  ⟨rfl, rfl, by decide,
    rebuild_zero_total_completes envEmpty inputW rfl rfl (by decide)⟩

/-- **C8**: a rebuild output reporting failure carries a non-empty error
message (provided the environment's raised exceptions stringify non-empty,
as the in-code `ValueError` does), and an output reporting success never
carries an error message — even when `failed_items > 0`, since the
success-path outputs always set `error_message` to `None`. -/
theorem rebuild_error_message_discipline (env : RebuildEnv)
    (input : RebuildEmbeddingsInput)
    (hne : ∀ s, env.collect_error = some s → s ≠ "") :
    ((rebuild_embeddings_command env input).1.success = false →
      ∃ s, (rebuild_embeddings_command env input).1.error_message = some s
        ∧ s ≠ "")
    ∧ ((rebuild_embeddings_command env input).1.success = true →
      (rebuild_embeddings_command env input).1.error_message = none) := by
  by_cases hm : env.embedding_model = false
  · rw [rebuild_no_model_eq env input hm]
    constructor
    · intro
      exact ⟨noEmbeddingModelMsg, rfl, by decide⟩
    · intro h
      exact absurd h (by simp [rebuildFailureOutput])
  · rw [Bool.not_eq_false] at hm
    cases hc : env.collect_error with
    | some e =>
      rw [rebuild_collect_error_eq env input hm hc]
      constructor
      · intro
        exact ⟨e, rfl, hne e hc⟩
      · intro h
        exact absurd h (by simp [rebuildFailureOutput])
    | none =>
      rw [rebuild_main_path env input hm hc]
      by_cases h0 : (rebuildWorklist (rebuildCollected env input)).length = 0
      · rw [if_pos h0]
        exact ⟨fun h => absurd h (by simp), fun _ => rfl⟩
      · rw [if_neg h0]
        exact ⟨fun h => absurd h (by simp), fun _ => rfl⟩

theorem rebuild_error_message_discipline_witness :
    (∀ s, envCollectErr.collect_error = some s → s ≠ "") ∧
    (((rebuild_embeddings_command envCollectErr inputW).1.success = false →
      ∃ s, (rebuild_embeddings_command envCollectErr inputW).1.error_message
          = some s ∧ s ≠ "")
    ∧ ((rebuild_embeddings_command envCollectErr inputW).1.success = true →
      (rebuild_embeddings_command envCollectErr inputW).1.error_message
        = none)) := by
  have hne : ∀ s, envCollectErr.collect_error = some s → s ≠ "" := by
    intro s hs
    have : s = "db unreachable" := by
      have h' : some "db unreachable" = some s := hs ▸ rfl
      exact (Option.some.injEq _ _ ▸ h' : "db unreachable" = s).symm
    rw [this]
    decide
  exact ⟨hne, rebuild_error_message_discipline envCollectErr inputW hne⟩

/-- **C10**: whenever the rebuild command returns `success = false` (an
exception escaping pre-flight or collection), the report carries
`total_items = processed_items = failed_items = 0` and all per-type
processed counters zero: the `except` handler builds its output with
hard-coded zero counters regardless of prior progress. -/
theorem rebuild_failed_all_counters_zero (env : RebuildEnv)
    (input : RebuildEmbeddingsInput)
    (h : (rebuild_embeddings_command env input).1.success = false) :
    (rebuild_embeddings_command env input).1.total_items = 0
      ∧ (rebuild_embeddings_command env input).1.processed_items = 0
      ∧ (rebuild_embeddings_command env input).1.failed_items = 0
      ∧ (rebuild_embeddings_command env input).1.sources_processed = 0
      ∧ (rebuild_embeddings_command env input).1.notes_processed = 0
      ∧ (rebuild_embeddings_command env input).1.insights_processed = 0 := by
  rcases rebuild_success_or_failure env input with ⟨msg, hEq⟩ | hTrue
  · rw [hEq]
    exact ⟨rfl, rfl, rfl, rfl, rfl, rfl⟩
  · rw [hTrue] at h
    exact Bool.noConfusion h

theorem rebuild_failed_all_counters_zero_witness :
    (rebuild_embeddings_command envNoModel inputW).1.success = false ∧
      (rebuild_embeddings_command envNoModel inputW).1.total_items = 0
      ∧ (rebuild_embeddings_command envNoModel inputW).1.processed_items = 0
      ∧ (rebuild_embeddings_command envNoModel inputW).1.failed_items = 0
      ∧ (rebuild_embeddings_command envNoModel inputW).1.sources_processed = 0
      ∧ (rebuild_embeddings_command envNoModel inputW).1.notes_processed = 0
      ∧ (rebuild_embeddings_command envNoModel inputW).1.insights_processed
        = 0 := by
  have h := rebuild_failed_all_counters_zero envNoModel inputW (by decide)
  exact ⟨by decide, h⟩

/-- **C4**: for every rebuild run past pre-flight and collection, every
collected item is attempted (the attempt trace is the whole work list, so a
failure at item K never stops items K+1..N), each failing item increments
`failed_items` (failed equals the count of non-ok items), at completion
`processed_items + failed_items = total_items`, and after any number `k` of
iterations the intermediate counters satisfy `processed + failed ≤ total`. -/
theorem rebuild_partial_failure_containment (env : RebuildEnv)
    (input : RebuildEmbeddingsInput) (hm : env.embedding_model = true)
    (hc : env.collect_error = none) :
    (rebuild_embeddings_command env input).2
        = rebuildWorklist (rebuildCollected env input)
      ∧ (rebuild_embeddings_command env input).1.failed_items
        = (rebuildWorklist (rebuildCollected env input)).countP
            (fun it => !(outcomeOf env it).isOk)
      ∧ (rebuild_embeddings_command env input).1.processed_items
          + (rebuild_embeddings_command env input).1.failed_items
        = (rebuild_embeddings_command env input).1.total_items
      ∧ ∀ k : Nat,
        (rebuildPartialState env input k).processedTotal
            + (rebuildPartialState env input k).failed_items
          ≤ (rebuild_embeddings_command env input).1.total_items := by
  have hz1 : initRebuildState.sources_processed = 0 := rfl
  have hz2 : initRebuildState.notes_processed = 0 := rfl
  have hz3 : initRebuildState.insights_processed = 0 := rfl
  have hz4 : initRebuildState.failed_items = 0 := rfl
  refine ⟨rebuild_trace_is_worklist env input hm hc, ?_, ?_, ?_⟩
  · rw [rebuild_main_path env input hm hc]
    by_cases h0 : (rebuildWorklist (rebuildCollected env input)).length = 0
    · rw [if_pos h0]
      have hwl := List.length_eq_zero.mp h0
      rw [hwl]
      rfl
    · rw [if_neg h0]
      dsimp only
      unfold rebuildFinalState
      rw [foldl_rebuildStep_failed, hz4]
      exact Nat.zero_add _
  · rw [rebuild_main_path env input hm hc]
    by_cases h0 : (rebuildWorklist (rebuildCollected env input)).length = 0
    · rw [if_pos h0]
      rfl
    · rw [if_neg h0]
      dsimp only
      have h2 := foldl_rebuildStep_counts env
        (rebuildWorklist (rebuildCollected env input)) initRebuildState
      unfold rebuildFinalState
      unfold RebuildState.processedTotal at h2
      rw [hz1, hz2, hz3, hz4] at h2
      omega
  · intro k
    have h2 := foldl_rebuildStep_counts env
      ((rebuildWorklist (rebuildCollected env input)).take k) initRebuildState
    unfold RebuildState.processedTotal at h2
    rw [hz1, hz2, hz3, hz4] at h2
    have hlen : ((rebuildWorklist (rebuildCollected env input)).take k).length
        ≤ (rebuildWorklist (rebuildCollected env input)).length := by
      rw [List.length_take]
      exact Nat.min_le_right _ _
    rw [rebuild_main_path env input hm hc]
    unfold rebuildPartialState RebuildState.processedTotal
    by_cases h0 : (rebuildWorklist (rebuildCollected env input)).length = 0
    · rw [if_pos h0]
      dsimp only
      omega
    · rw [if_neg h0]
      dsimp only
      omega

theorem rebuild_partial_failure_containment_witness :
    envW.embedding_model = true ∧ envW.collect_error = none ∧
      (rebuild_embeddings_command envW inputW).1.processed_items
          + (rebuild_embeddings_command envW inputW).1.failed_items
        = (rebuild_embeddings_command envW inputW).1.total_items := by
  have h := rebuild_partial_failure_containment envW inputW rfl rfl
  exact ⟨rfl, rfl, h.2.2.1⟩

/-- **C5**: for every rebuild run past pre-flight and collection, the
sequence of attempted items is exactly all collected sources, then all
collected notes, then all collected insights, each in its collected order
(no reordering, independent of per-item successes or failures), and —
given duplicate-free row ids in the store — no item is attempted twice. -/
theorem rebuild_sequential_order (env : RebuildEnv)
    (input : RebuildEmbeddingsInput) (hm : env.embedding_model = true)
    (hc : env.collect_error = none)
    (hsrc : (env.db.source.map SourceRow.id).Nodup)
    (hnote : (env.db.note.map NoteRow.id).Nodup)
    (hins : (env.db.source_insight.map SourceInsightRow.id).Nodup) :
    (rebuild_embeddings_command env input).2
        = (rebuildCollected env input).sources.map
            (fun x => (ItemType.source, x))
          ++ (rebuildCollected env input).notes.map
            (fun x => (ItemType.note, x))
          ++ (rebuildCollected env input).insights.map
            (fun x => (ItemType.insight, x))
      ∧ (rebuild_embeddings_command env input).2.Nodup := by
  have htr := rebuild_trace_is_worklist env input hm hc
  constructor
  · rw [htr]
    rfl
  · rw [htr]
    refine rebuildWorklist_nodup _ ?_ ?_ ?_
    · exact collected_sources_nodup env.db input.mode _ _ _ hsrc
    · exact collected_notes_nodup env.db input.mode _ _ _ hnote
    · exact collected_insights_nodup env.db input.mode _ _ _ hins

theorem rebuild_sequential_order_witness :
    (dbW.source.map SourceRow.id).Nodup ∧
      ((rebuild_embeddings_command envW inputW).2
          = (rebuildCollected envW inputW).sources.map
              (fun x => (ItemType.source, x))
            ++ (rebuildCollected envW inputW).notes.map
              (fun x => (ItemType.note, x))
            ++ (rebuildCollected envW inputW).insights.map
              (fun x => (ItemType.insight, x))
        ∧ (rebuild_embeddings_command envW inputW).2.Nodup) := by
  have h := rebuild_sequential_order envW inputW rfl rfl (by decide)
    (by decide) (by decide)
  exact ⟨by decide, h⟩

theorem collect_existing_sources_nodup (db : Store) (s n i : Bool) :
    (collect_items_for_rebuild db RebuildMode.existing s n i).sources.Nodup := by
  unfold collect_items_for_rebuild
  cases s
  · simp
  · simp only [if_true]
    exact List.nodup_dedup _

/-- **C6**: in `existing` mode the collector returns, for each selected
type, exactly the items whose embedding state is "has embedding": a source
id is returned iff some `source_embedding` chunk row links to it with a
non-empty vector; a note or insight id is returned iff its row's
`embedding` field is non-null and non-empty.  Unselected types yield empty
lists, and each returned list is duplicate-free (sources by
`array::distinct`; notes and insights given duplicate-free row ids). -/
theorem collect_existing_only_embedded (db : Store) (s n i : Bool)
    (hnote : (db.note.map NoteRow.id).Nodup)
    (hins : (db.source_insight.map SourceInsightRow.id).Nodup) :
    (∀ x : String,
        x ∈ (collect_items_for_rebuild db RebuildMode.existing s n i).sources
          ↔ s = true ∧ ∃ r ∈ db.source_embedding,
              r.source = x ∧ hasNonEmptyEmbedding r.embedding = true)
      ∧ (∀ x : String,
        x ∈ (collect_items_for_rebuild db RebuildMode.existing s n i).notes
          ↔ n = true ∧ ∃ r ∈ db.note,
              r.id = x ∧ hasNonEmptyEmbedding r.embedding = true)
      ∧ (∀ x : String,
        x ∈ (collect_items_for_rebuild db RebuildMode.existing s n i).insights
          ↔ i = true ∧ ∃ r ∈ db.source_insight,
              r.id = x ∧ hasNonEmptyEmbedding r.embedding = true)
      ∧ (s = false →
        (collect_items_for_rebuild db RebuildMode.existing s n i).sources = [])
      ∧ (n = false →
        (collect_items_for_rebuild db RebuildMode.existing s n i).notes = [])
      ∧ (i = false →
        (collect_items_for_rebuild db RebuildMode.existing s n i).insights = [])
      ∧ (collect_items_for_rebuild db RebuildMode.existing s n i).sources.Nodup
      ∧ (collect_items_for_rebuild db RebuildMode.existing s n i).notes.Nodup
      ∧ (collect_items_for_rebuild db RebuildMode.existing s n i).insights.Nodup
      := by
  refine ⟨collect_existing_sources_mem db s n i,
    collect_existing_notes_mem db s n i,
    collect_existing_insights_mem db s n i, ?_, ?_, ?_,
    collect_existing_sources_nodup db s n i,
    collected_notes_nodup db RebuildMode.existing s n i hnote,
    collected_insights_nodup db RebuildMode.existing s n i hins⟩
  · intro hf
    subst hf
    exact collect_unselected_sources db RebuildMode.existing n i
  · intro hf
    subst hf
    exact collect_unselected_notes db RebuildMode.existing s i
  · intro hf
    subst hf
    exact collect_unselected_insights db RebuildMode.existing s n

theorem collect_existing_only_embedded_witness :
    (dbW.note.map NoteRow.id).Nodup
      ∧ (dbW.source_insight.map SourceInsightRow.id).Nodup
      ∧ (collect_items_for_rebuild dbW RebuildMode.existing true true
          false).sources.Nodup
      ∧ (collect_items_for_rebuild dbW RebuildMode.existing true true
          false).notes.Nodup
      ∧ (collect_items_for_rebuild dbW RebuildMode.existing true true
          false).insights = [] := by
  have h := collect_existing_only_embedded dbW true true false (by decide)
    (by decide)
  exact ⟨by decide, by decide, h.2.2.2.2.2.2.1, h.2.2.2.2.2.2.2.1,
    h.2.2.2.2.2.1 rfl⟩

/-- **C7**: embedding the same unchanged document twice is idempotent.
For a configured model and an existing source record, the second run
reports the same `chunks_created` as the first, the store after the second
run equals the store after the first (the second run's chunks fully
replace the first's, with no duplicated chunk rows), and the chunk count
equals the number of chunks of the document's content.
(`source.vectorize` itself is modelled from the spec, §4.2: it lives in
`open_notebook/domain/notebook.py`, outside the sources verified here.) -/
theorem embed_source_idempotent (env : SingleEnv) (db : Store) (x : String)
    (src : SourceRow) (hm : env.embedding_model = true)
    (hs : sourceGet db x = some src) :
    ((embed_single_item_command env
        (embed_single_item_command env db
          { item_id := x, item_type := ItemType.source }).2
        { item_id := x, item_type := ItemType.source }).1.chunks_created
      = (embed_single_item_command env db
          { item_id := x, item_type := ItemType.source }).1.chunks_created)
    ∧ ((embed_single_item_command env
        (embed_single_item_command env db
          { item_id := x, item_type := ItemType.source }).2
        { item_id := x, item_type := ItemType.source }).2
      = (embed_single_item_command env db
          { item_id := x, item_type := ItemType.source }).2)
    ∧ ((embed_single_item_command env db
          { item_id := x, item_type := ItemType.source }).1.chunks_created
      = (env.chunk_text (src.full_text.getD "")).length) := by
  have hid : src.id = x := by
    unfold sourceGet at hs
    have hp := List.find?_some hs
    exact eq_of_beq hp
  have e1 : embed_single_item_command env db
      { item_id := x, item_type := ItemType.source }
      = ({ success := true, item_id := x, item_type := ItemType.source,
           chunks_created := countSourceChunks (vectorize env db src) x,
           error_message := none }, vectorize env db src) := by
    unfold embed_single_item_command
    rw [hm]
    simp only [Bool.true_eq_false, if_false]
    rw [hs]
  have hs2 : sourceGet (vectorize env db src) x = some src := hs
  have e2 : embed_single_item_command env (vectorize env db src)
      { item_id := x, item_type := ItemType.source }
      = ({ success := true, item_id := x, item_type := ItemType.source,
           chunks_created :=
             countSourceChunks (vectorize env (vectorize env db src) src) x,
           error_message := none },
         vectorize env (vectorize env db src) src) := by
    unfold embed_single_item_command
    rw [hm]
    simp only [Bool.true_eq_false, if_false]
    rw [hs2]
  rw [e1]
  dsimp only
  rw [e2]
  dsimp only
  rw [vectorize_idem]
  refine ⟨rfl, rfl, ?_⟩
  rw [← hid, countSourceChunks_vectorize]

theorem embed_source_idempotent_witness :
    senvW.embedding_model = true
      ∧ sourceGet dbW "source:1"
        = some { id := "source:1", full_text := some "hello world" }
      ∧ ((embed_single_item_command senvW
          (embed_single_item_command senvW dbW
            { item_id := "source:1", item_type := ItemType.source }).2
          { item_id := "source:1", item_type := ItemType.source
            }).1.chunks_created
        = (embed_single_item_command senvW dbW
            { item_id := "source:1", item_type := ItemType.source
              }).1.chunks_created)
      ∧ ((embed_single_item_command senvW dbW
          { item_id := "source:1", item_type := ItemType.source
            }).1.chunks_created
        = (senvW.chunk_text
            (({ id := "source:1", full_text := some "hello world"
               } : SourceRow).full_text.getD "")).length) := by
  have h := embed_source_idempotent senvW dbW "source:1"
    { id := "source:1", full_text := some "hello world" } rfl (by decide)
  exact ⟨rfl, by decide, h.1, h.2.2⟩

/-- **C9**: a single-item embed request for a note id whose `Note.get`
returns nothing does not throw: it returns an output with
`success = false`, `chunks_created = 0`, and an error message that is the
not-found indication for that id (`"Note '<id>' not found"`); the store is
untouched. -/
theorem embed_missing_note_returns_failure (env : SingleEnv) (db : Store)
    (input : EmbedSingleItemInput) (hm : env.embedding_model = true)
    (ht : input.item_type = ItemType.note)
    (hn : noteGet db input.item_id = none) :
    embed_single_item_command env db input
      = ({ success := false, item_id := input.item_id,
           item_type := ItemType.note, chunks_created := 0,
           error_message := some (noteNotFoundMsg input.item_id) }, db) := by
  unfold embed_single_item_command
  rw [hm]
  simp only [Bool.true_eq_false, if_false]
  rw [ht]
  dsimp only
  rw [hn]
  unfold singleFailureOutput
  rw [ht]

theorem embed_missing_note_witness :
    senvW.embedding_model = true
      ∧ noteGet dbW "note:404" = none
      ∧ embed_single_item_command senvW dbW
          { item_id := "note:404", item_type := ItemType.note }
        = ({ success := false, item_id := "note:404",
             item_type := ItemType.note, chunks_created := 0,
             error_message := some (noteNotFoundMsg "note:404") }, dbW) :=
  ⟨rfl, by decide,
    embed_missing_note_returns_failure senvW dbW
      { item_id := "note:404", item_type := ItemType.note } rfl rfl
      (by decide)⟩
